import Mathlib

/-!
Verification of the BatterySim decision engine against its specification.

This file gives a shallow embedding, in Lean 4, of the core decision
components of the battery-dispatch simulator: the tariff arithmetic
(ValueCalculator), the consumption statistics and reserve calculator, the
three specialist policies (real-time override, peak shaving, arbitrage),
the two coordinators (BossAgent hourly arbitration and plan execution,
Orchestrator), the 24-hour heuristic optimiser, the peak tracker, and the
tracker-relevant part of the hourly simulator loop.

Python floats are modelled as exact rationals (ℚ); Python lists as Lean
lists; Python None-returning functions as Option; a Python call that
raises as Except.error.  String-valued presentation fields (reasoning
texts, metadata maps) are omitted: no control flow of the embedded code
depends on them, except agent names, which are kept because the
the conflict resolution of the Orchestrator compares them.
-/

namespace BatterySim

/-- Action kinds of base_agent.AgentAction.  The Python EXPORT member is
named exportGrid here because export is a Lean keyword. -/
inductive AgentAction where
  | charge
  | discharge
  | hold
  | exportGrid
deriving DecidableEq, Repr

/-- Recommendation record of base_agent.AgentRecommendation (numeric and
flag fields; reasoning and metadata omitted). -/
structure AgentRecommendation where
  agent_name : String
  action : AgentAction
  kwh : ℚ
  confidence : ℚ
  value_sek : ℚ
  priority : ℤ
  is_veto : Bool := false
  requires_immediate_action : Bool := false
deriving DecidableEq, Repr

/-- Timestamp abstraction: the embedded code only inspects the hour of
day, the Monday-indexed day of week, and the strftime month key. -/
structure Timestamp where
  hour : ℕ
  dayofweek : ℕ
  monthKey : String
deriving DecidableEq, Repr

/-- Per-tick context of base_agent.BatteryContext (numeric fields used by
the embedded components). -/
structure BatteryContext where
  ts : Timestamp
  hour : ℕ
  soc_kwh : ℚ
  capacity_kwh : ℚ
  max_charge_kw : ℚ
  max_discharge_kw : ℚ
  efficiency : ℚ
  consumption_kw : ℚ
  solar_production_kw : ℚ
  grid_import_kw : ℚ
  spot_price_sek_kwh : ℚ
  import_cost_sek_kwh : ℚ
  export_revenue_sek_kwh : ℚ
  spot_forecast : List ℚ
  consumption_forecast : List ℚ
  current_month : String
  top_n_peaks : List ℚ
  peak_threshold_kw : ℚ
  is_measurement_hour : Bool
  avg_consumption_kw : ℚ
  peak_consumption_kw : ℚ
  min_soc_kwh : ℚ
  target_morning_soc_kwh : ℚ
deriving DecidableEq, Repr

/-! ## ValueCalculator (src/agents/value_calculator.py) -/

/-- Tariff parameters of value_calculator.ValueCalculator. -/
structure ValueCalculator where
  grid_fee : ℚ := 42/100
  energy_tax : ℚ := 40/100
  transfer_fee : ℚ := 42/100
  vat_rate : ℚ := 25/100
  effect_tariff : ℚ := 60
  efficiency : ℚ := 95/100
deriving DecidableEq, Repr

/-- ValueCalculator.calculate_import_cost. -/
def ValueCalculator.calculate_import_cost (vc : ValueCalculator)
    (spot_price kwh : ℚ) (include_vat : Bool) : ℚ :=
  let subtotal := (spot_price + vc.grid_fee + vc.energy_tax) * kwh
  if include_vat then subtotal * (1 + vc.vat_rate) else subtotal

/-- ValueCalculator.calculate_export_revenue. -/
def ValueCalculator.calculate_export_revenue (vc : ValueCalculator)
    (spot_price kwh : ℚ) : ℚ :=
  max 0 (spot_price - vc.transfer_fee) * kwh

/-- ValueCalculator.calculate_peak_shaving_value. -/
def ValueCalculator.calculate_peak_shaving_value (vc : ValueCalculator)
    (kw_reduction : ℚ) (is_in_top_n : Bool) (days_in_month : ℚ) : ℚ :=
  if ¬is_in_top_n ∨ kw_reduction ≤ 0 then 0
  else kw_reduction * vc.effect_tariff / days_in_month

/-- ValueCalculator.calculate_self_consumption_value. -/
def ValueCalculator.calculate_self_consumption_value (vc : ValueCalculator)
    (spot_price kwh battery_charge_cost : ℚ) (include_vat : Bool) : ℚ :=
  let import_cost := vc.calculate_import_cost spot_price kwh include_vat
  let battery_cost := battery_charge_cost * kwh / vc.efficiency
  import_cost - battery_cost

/-- ValueCalculator.calculate_arbitrage_value, translated from the source
verbatim: the already-kwh-scaled export revenue is multiplied by
effective_kwh = kwh * efficiency before the charge cost is subtracted. -/
def ValueCalculator.calculate_arbitrage_value (vc : ValueCalculator)
    (discharge_price charge_price kwh : ℚ) : ℚ :=
  let export_revenue := vc.calculate_export_revenue discharge_price kwh
  let charge_cost := vc.calculate_import_cost charge_price kwh true
  let effective_kwh := kwh * vc.efficiency
  export_revenue * effective_kwh - charge_cost

/-- Arbitrage profit exactly as the specification words it:
export_revenue(discharge_spot, kwh * efficiency) minus the quantity
given by import_cost(charge_spot, kwh, with_vat=true). -/
def specArbitrageValue (vc : ValueCalculator)
    (discharge_price charge_price kwh : ℚ) : ℚ :=
  vc.calculate_export_revenue discharge_price (kwh * vc.efficiency)
    - vc.calculate_import_cost charge_price kwh true

/-- ValueCalculator with all constructor defaults. -/
def vcDefault : ValueCalculator := {}

/-! ## Consumption statistics (src/agents/consumption_analyzer.py) -/

/-- Day type of consumption_analyzer.DayType. -/
inductive DayType where
  | weekday
  | weekend
deriving DecidableEq, Repr

/-- Time-of-day bucket of consumption_analyzer.TimeOfDay. -/
inductive TimeOfDay where
  | night
  | morning
  | afternoon
  | evening
deriving DecidableEq, Repr

/-- ConsumptionAnalyzer._get_time_of_day. -/
def getTimeOfDay (hour : ℕ) : TimeOfDay :=
  if hour < 6 then .night
  else if hour < 12 then .morning
  else if hour < 18 then .afternoon
  else .evening

/-- Statistical summary of consumption_analyzer.ConsumptionStats. -/
structure ConsumptionStats where
  hour : ℕ
  day_type : DayType
  time_of_day : TimeOfDay
  sample_count : ℕ
  mean_kw : ℚ
  median_kw : ℚ
  std_kw : ℚ
  min_kw : ℚ
  max_kw : ℚ
  p50_kw : ℚ
  p75_kw : ℚ
  p90_kw : ℚ
  p95_kw : ℚ
  p99_kw : ℚ
deriving DecidableEq, Repr

/-- ConsumptionStats.get_percentile: a dictionary lookup over the five
stored percentiles whose .get default is p95_kw. -/
def ConsumptionStats.get_percentile (s : ConsumptionStats) (percentile : ℤ) : ℚ :=
  if percentile = 50 then s.p50_kw
  else if percentile = 75 then s.p75_kw
  else if percentile = 90 then s.p90_kw
  else if percentile = 95 then s.p95_kw
  else if percentile = 99 then s.p99_kw
  else s.p95_kw

/-- Reserve requirement record of consumption_analyzer.ReserveRequirement
(timestamp kept as the hour/day fields actually read downstream; the
reasoning string is omitted).  In the Python dataclass every field is
required — there are no defaults. -/
structure ReserveRequirement where
  hour : ℕ
  day_type : DayType
  expected_peak_kw : ℚ
  grid_import_limit_kw : ℚ
  raw_reserve_kwh : ℚ
  safety_buffer : ℚ
  required_reserve_kwh : ℚ
  percentile_used : ℤ
  confidence : ℚ
  risk_level : String
  consumption_stats : ConsumptionStats
deriving DecidableEq, Repr

/-- Capacity split record of consumption_analyzer.CapacityAllocation.
Note: the dataclass has no reasoning field. -/
structure CapacityAllocation where
  total_capacity_kwh : ℚ
  current_soc_kwh : ℚ
  peak_shaving_reserve_kwh : ℚ
  available_for_arbitrage_kwh : ℚ
  minimum_soc_kwh : ℚ
  can_charge : Bool
  can_discharge : Bool
  max_charge_this_hour_kwh : ℚ
  max_discharge_this_hour_kwh : ℚ
  opportunity_cost_sek : ℚ
deriving DecidableEq, Repr

/-- ConsumptionAnalyzer reduced to its built stats cache: a lookup from
(hour-of-day, day type) to the optional precomputed statistics (get_stats
returns None when fewer than three samples existed for the slot). -/
structure ConsumptionAnalyzer where
  getStats : ℕ → DayType → Option ConsumptionStats

/-- ConsumptionAnalyzer.get_risk_level. -/
def ConsumptionAnalyzer.get_risk_level (a : ConsumptionAnalyzer)
    (hour : ℕ) (day_type : DayType) : String :=
  match a.getStats hour day_type with
  | none => "unknown"
  | some stats =>
    let cv : ℚ := if stats.mean_kw > 0 then stats.std_kw / stats.mean_kw else 0
    let high_cv := cv > 1
    let high_p95 := stats.p95_kw > 5
    let evening_hours := 17 ≤ hour ∧ hour ≤ 21
    if (high_cv ∧ high_p95) ∨ (evening_hours ∧ high_p95) then "high"
    else if high_cv ∨ high_p95 ∨ evening_hours then "medium"
    else "low"

/-- ConsumptionAnalyzer.get_recommended_percentile. -/
def ConsumptionAnalyzer.get_recommended_percentile (a : ConsumptionAnalyzer)
    (hour : ℕ) (day_type : DayType) (_default_percentile : ℤ) : ℤ :=
  let risk := a.get_risk_level hour day_type
  if risk = "high" then 99
  else if risk = "medium" then 95
  else 90

/-! ## DynamicReserveCalculator (src/agents/reserve_calculator.py) -/

/-- Configuration of reserve_calculator.DynamicReserveCalculator. -/
structure DynamicReserveCalculator where
  analyzer : ConsumptionAnalyzer
  grid_import_limit_kw : ℚ := 5
  max_discharge_kw : ℚ := 12
  default_percentile : ℤ := 95
  safety_buffer : ℚ := 115/100
  spike_duration_hours : ℚ := 1/2
  min_reserve_kwh : ℚ := 2
  max_reserve_kwh : ℚ := 15

/-- Python helper: timestamp.dayofweek in [5, 6] selects the weekend
day type. -/
def dayTypeOf (ts : Timestamp) : DayType :=
  if ts.dayofweek = 5 ∨ ts.dayofweek = 6 then .weekend else .weekday

/-- DynamicReserveCalculator._calculate_confidence. -/
def DynamicReserveCalculator.calculate_confidence
    (_rcalc : DynamicReserveCalculator) (stats : ConsumptionStats)
    (percentile : ℤ) : ℚ :=
  let sample_factor := min 1 ((stats.sample_count : ℚ) / 30)
  let cv : ℚ := if stats.mean_kw > 0 then stats.std_kw / stats.mean_kw else 2
  let variability_factor := max (1/2) (1 - (cv - 1/2) / 2)
  let percentile_factor : ℚ :=
    if percentile = 90 then 8/10
    else if percentile = 95 then 9/10
    else if percentile = 99 then 1
    else 85/100
  sample_factor * variability_factor * percentile_factor

/-- DynamicReserveCalculator._create_fallback_reserve.  Note that the
returned required_reserve_kwh is raw_reserve_kwh * safety_buffer with no
clamp to [min_reserve_kwh, max_reserve_kwh]. -/
def DynamicReserveCalculator.create_fallback_reserve
    (rcalc : DynamicReserveCalculator) (hour : ℕ) (day_type : DayType) :
    ReserveRequirement :=
  let expected_peak_kw : ℚ := 8
  let raw_reserve_kwh := max 0 (expected_peak_kw - rcalc.grid_import_limit_kw)
  let required_reserve_kwh := raw_reserve_kwh * rcalc.safety_buffer
  let stats : ConsumptionStats :=
    { hour := hour
      day_type := day_type
      time_of_day := getTimeOfDay hour
      sample_count := 0
      mean_kw := 2
      median_kw := 3/2
      std_kw := 2
      min_kw := 0
      max_kw := 10
      p50_kw := 3/2
      p75_kw := 3
      p90_kw := 5
      p95_kw := 7
      p99_kw := 9 }
  { hour := hour
    day_type := day_type
    expected_peak_kw := expected_peak_kw
    grid_import_limit_kw := rcalc.grid_import_limit_kw
    raw_reserve_kwh := raw_reserve_kwh
    safety_buffer := rcalc.safety_buffer
    required_reserve_kwh := required_reserve_kwh
    percentile_used := 95
    confidence := 1/2
    risk_level := "high"
    consumption_stats := stats }

/-- DynamicReserveCalculator.calculate_reserve.  The percentile_override
parameter follows Python truthiness: None and 0 both fall back to the
recommendation of the analyzer. -/
def DynamicReserveCalculator.calculate_reserve
    (rcalc : DynamicReserveCalculator) (ts : Timestamp) (_current_soc_kwh : ℚ)
    (percentile_override : Option ℤ) : ReserveRequirement :=
  let hour := ts.hour
  let day_type := dayTypeOf ts
  match rcalc.analyzer.getStats hour day_type with
  | none => rcalc.create_fallback_reserve hour day_type
  | some stats =>
    let percentile :=
      match percentile_override with
      | some p =>
        if p = 0 then
          rcalc.analyzer.get_recommended_percentile hour day_type rcalc.default_percentile
        else p
      | none =>
        rcalc.analyzer.get_recommended_percentile hour day_type rcalc.default_percentile
    let expected_peak_kw := stats.get_percentile percentile
    let reduction_needed_kw := max 0 (expected_peak_kw - rcalc.grid_import_limit_kw)
    let actual_reduction_kw := min reduction_needed_kw rcalc.max_discharge_kw
    let raw_reserve_kwh := actual_reduction_kw * rcalc.spike_duration_hours
    let required_buffered := raw_reserve_kwh * rcalc.safety_buffer
    let required_reserve_kwh :=
      max rcalc.min_reserve_kwh (min rcalc.max_reserve_kwh required_buffered)
    let risk_level := rcalc.analyzer.get_risk_level hour day_type
    let confidence := rcalc.calculate_confidence stats percentile
    { hour := hour
      day_type := day_type
      expected_peak_kw := expected_peak_kw
      grid_import_limit_kw := rcalc.grid_import_limit_kw
      raw_reserve_kwh := raw_reserve_kwh
      safety_buffer := rcalc.safety_buffer
      required_reserve_kwh := required_reserve_kwh
      percentile_used := percentile
      confidence := confidence
      risk_level := risk_level
      consumption_stats := stats }

/-- DynamicReserveCalculator.allocate_capacity. -/
def DynamicReserveCalculator.allocate_capacity
    (_rcalc : DynamicReserveCalculator) (reserve_requirement : ReserveRequirement)
    (total_capacity_kwh current_soc_kwh min_soc_kwh max_charge_kw
      max_discharge_kw estimated_arbitrage_value_sek : ℚ) : CapacityAllocation :=
  let required_reserve := reserve_requirement.required_reserve_kwh
  let available_for_arbitrage := max 0 (current_soc_kwh - min_soc_kwh - required_reserve)
  let can_charge := current_soc_kwh < total_capacity_kwh
  let can_discharge := current_soc_kwh > min_soc_kwh + required_reserve
  let max_charge_this_hour :=
    if can_charge then min max_charge_kw (total_capacity_kwh - current_soc_kwh) else 0
  let max_discharge_this_hour :=
    if can_discharge then
      min max_discharge_kw (current_soc_kwh - min_soc_kwh - required_reserve)
    else 0
  let opportunity_cost :=
    if available_for_arbitrage < total_capacity_kwh * (1/2) then
      estimated_arbitrage_value_sek * (1/2)
    else 0
  { total_capacity_kwh := total_capacity_kwh
    current_soc_kwh := current_soc_kwh
    peak_shaving_reserve_kwh := required_reserve
    available_for_arbitrage_kwh := available_for_arbitrage
    minimum_soc_kwh := min_soc_kwh
    can_charge := decide can_charge
    can_discharge := decide can_discharge
    max_charge_this_hour_kwh := max_charge_this_hour
    max_discharge_this_hour_kwh := max_discharge_this_hour
    opportunity_cost_sek := opportunity_cost }

/-! ## RealTimeOverrideAgent (src/agents/base_agent.py) -/

/-- Parameters of base_agent.RealTimeOverrideAgent. -/
structure RealTimeOverrideAgent where
  spike_threshold : ℚ := 10
  critical_margin : ℚ := 1
deriving DecidableEq, Repr

/-- RealTimeOverrideAgent.analyze.  First branch: measurement-hour spike
close to the peak threshold yields a veto discharge (priority 1); if its
inner positivity guard fails control falls through to the second branch.
Second branch: SoC within 2 kWh of the minimum yields a veto charge, but
only outside measurement hours. -/
def RealTimeOverrideAgent.analyze (a : RealTimeOverrideAgent)
    (ctx : BatteryContext) : Option AgentRecommendation :=
  let spikeRec : Option AgentRecommendation :=
    if ctx.is_measurement_hour ∧ ctx.consumption_kw > a.spike_threshold then
      if ctx.consumption_kw > ctx.peak_threshold_kw - a.critical_margin then
        let discharge_needed0 :=
          ctx.consumption_kw - (ctx.peak_threshold_kw - a.critical_margin)
        let discharge_needed := min discharge_needed0 (ctx.soc_kwh - ctx.min_soc_kwh)
        if discharge_needed > 0 then
          some { agent_name := "RealTimeOverride"
                 action := .discharge
                 kwh := discharge_needed
                 confidence := 1
                 value_sek := discharge_needed * 60 / 30
                 priority := 1
                 is_veto := true
                 requires_immediate_action := true }
        else none
      else none
    else none
  match spikeRec with
  | some rec => some rec
  | none =>
    if ctx.soc_kwh < ctx.min_soc_kwh + 2 then
      if ¬ctx.is_measurement_hour then
        some { agent_name := "RealTimeOverride"
               action := .charge
               kwh := ctx.min_soc_kwh + 5 - ctx.soc_kwh
               confidence := 1
               value_sek := 0
               priority := 1
               is_veto := true
               requires_immediate_action := true }
      else none
    else none

/-! ## PeakShavingAgent (src/agents/peak_shaving_agent.py) -/

/-- Parameters of peak_shaving_agent.PeakShavingAgent. -/
structure PeakShavingAgent where
  target_peak_kw : ℚ := 5
  aggressive_threshold : ℚ := 9/10
deriving DecidableEq, Repr

/-- PeakShavingAgent.analyze.  The proactive consumption-forecast block of
the source computes values but ends in a pass statement with no effect, so
it is omitted.  Case 1 fires when the pre-battery grid import exceeds the
threshold or fewer than three peaks are recorded; the proposed discharge is
max(0, potential - min(target_peak, threshold * aggressive)) clamped by the
SoC above the floor and by consumption (the source applies no
max-discharge clamp). -/
def PeakShavingAgent.analyze (a : PeakShavingAgent) (vc : ValueCalculator)
    (ctx : BatteryContext) : Option AgentRecommendation :=
  if ¬ctx.is_measurement_hour then none
  else
    let threshold_kw := ctx.peak_threshold_kw
    let top_peaks := ctx.top_n_peaks
    let potential_peak_kw := ctx.grid_import_kw
    if potential_peak_kw > threshold_kw ∨ top_peaks.length < 3 then
      let target_grid_import := min a.target_peak_kw (threshold_kw * a.aggressive_threshold)
      let discharge_needed := max 0 (potential_peak_kw - target_grid_import)
      let available_discharge := ctx.soc_kwh - ctx.min_soc_kwh
      let actual_discharge := min discharge_needed (min available_discharge ctx.consumption_kw)
      if actual_discharge > 1/2 then
        let kw_reduction := min actual_discharge (potential_peak_kw - a.target_peak_kw)
        let is_in_top_n := potential_peak_kw > threshold_kw ∨ top_peaks.length < 3
        let value := vc.calculate_peak_shaving_value kw_reduction (decide is_in_top_n) 30
        let self_consumption_value :=
          vc.calculate_self_consumption_value ctx.spot_price_sek_kwh actual_discharge (60/100) true
        let total_value := value + self_consumption_value
        let priority : ℤ := if potential_peak_kw > threshold_kw * (11/10) then 1 else 2
        let confidence : ℚ := if is_in_top_n then 95/100 else 80/100
        some { agent_name := "PeakShavingAgent"
               action := .discharge
               kwh := actual_discharge
               confidence := confidence
               value_sek := total_value
               priority := priority
               is_veto := false
               requires_immediate_action := decide (priority = 1) }
      else none
    else none

/-! ## ArbitrageAgent (src/agents/arbitrage_agent.py) -/

/-- Parameters of arbitrage_agent.ArbitrageAgent. -/
structure ArbitrageAgent where
  min_profit : ℚ := 5
  min_export_price : ℚ := 3
  night_charge_threshold : ℚ := 70/100
deriving DecidableEq, Repr

/-- Maximum upcoming forecast consumption over measurement hours, as in
ArbitrageAgent._analyze_charging: fold over the enumerated forecast prefix
keeping entries whose wrapped hour lies in 06..23, starting from 0. -/
def maxUpcomingConsumption (hour : ℕ) (upcoming : List ℚ) : ℚ :=
  (List.enum upcoming).foldl
    (fun acc hc =>
      let future_hour := (hour + hc.1) % 24
      if 6 ≤ future_hour ∧ future_hour ≤ 23 then max acc hc.2 else acc)
    0

/-- Average day-hour spot price of ArbitrageAgent._analyze_charging: the
mean of forecast entries whose wrapped hour lies in 06..23, or the 1.50
default when the forecast or the filtered list is empty. -/
def futureAvgPrice (hour : ℕ) (spot_forecast : List ℚ) : ℚ :=
  if spot_forecast = [] then 150/100
  else
    let day_hours := ((List.enum spot_forecast).filter
      (fun pi => 6 ≤ (hour + pi.1) % 24 ∧ (hour + pi.1) % 24 ≤ 23)).map (fun pi => pi.2)
    if day_hours = [] then 150/100
    else day_hours.sum / day_hours.length

/-- ArbitrageAgent._analyze_charging. -/
def ArbitrageAgent.analyze_charging (a : ArbitrageAgent) (vc : ValueCalculator)
    (ctx : BatteryContext) : Option AgentRecommendation :=
  let current_price := ctx.spot_price_sek_kwh
  if ctx.is_measurement_hour then none
  else if current_price ≥ a.night_charge_threshold then none
  else
    let safe_max_soc := ctx.capacity_kwh - 10
    let target_soc0 := min ctx.target_morning_soc_kwh safe_max_soc
    let target_soc :=
      if ctx.consumption_forecast = [] then target_soc0
      else
        let hours_to_check := min 18 ctx.consumption_forecast.length
        let upcoming := ctx.consumption_forecast.take hours_to_check
        let max_upcoming := maxUpcomingConsumption ctx.hour upcoming
        if max_upcoming > 7 then
          let peak_reduction_kw := min (max_upcoming - 5) 12
          let reserve_kwh := min (peak_reduction_kw * (1/2)) 12
          max (ctx.min_soc_kwh + reserve_kwh + 3) (max ctx.target_morning_soc_kwh 15)
        else target_soc0
    let room_to_charge := target_soc - ctx.soc_kwh
    if room_to_charge < 1 then none
    else
      let charge_kwh := min room_to_charge
        (min ctx.max_charge_kw (ctx.capacity_kwh - ctx.soc_kwh))
      if charge_kwh < 1/2 then none
      else
        let import_cost_now := vc.calculate_import_cost current_price charge_kwh true
        let future_avg_price := futureAvgPrice ctx.hour ctx.spot_forecast
        let future_savings := vc.calculate_self_consumption_value future_avg_price
          (charge_kwh * ctx.efficiency) (import_cost_now / charge_kwh) true
        if future_savings < 1 then none
        else
          some { agent_name := "ArbitrageAgent"
                 action := .charge
                 kwh := charge_kwh
                 confidence := 85/100
                 value_sek := future_savings
                 priority := 3 }

/-- ArbitrageAgent._analyze_self_consumption. -/
def ArbitrageAgent.analyze_self_consumption (_a : ArbitrageAgent)
    (vc : ValueCalculator) (ctx : BatteryContext) : Option AgentRecommendation :=
  if ctx.is_measurement_hour then none
  else
    let current_price := ctx.spot_price_sek_kwh
    let available_discharge := ctx.soc_kwh - ctx.min_soc_kwh
    let discharge_kwh := min ctx.consumption_kw
      (min available_discharge ctx.max_discharge_kw)
    if discharge_kwh < 1/2 then none
    else
      let value := vc.calculate_self_consumption_value current_price discharge_kwh (60/100) true
      if value < 1/2 then none
      else
        let pc : ℤ × ℚ :=
          if current_price > 250/100 then (2, 90/100)
          else if current_price > 150/100 then (3, 80/100)
          else (4, 60/100)
        some { agent_name := "ArbitrageAgent"
               action := .discharge
               kwh := discharge_kwh
               confidence := pc.2
               value_sek := value
               priority := pc.1 }

/-- ArbitrageAgent._analyze_export. -/
def ArbitrageAgent.analyze_export (a : ArbitrageAgent) (vc : ValueCalculator)
    (ctx : BatteryContext) : Option AgentRecommendation :=
  let current_price := ctx.spot_price_sek_kwh
  if current_price < a.min_export_price then none
  else
    let export_revenue_per_kwh := max 0 (current_price - vc.transfer_fee)
    let battery_charge_cost : ℚ := 60/100
    if export_revenue_per_kwh < battery_charge_cost then none
    else if export_revenue_per_kwh < 1 then none
    else
      let available_discharge := ctx.soc_kwh - ctx.min_soc_kwh
      let reserve_for_peaks : ℚ := if ctx.is_measurement_hour then 5 else 2
      let export_kwh := min (available_discharge - reserve_for_peaks) ctx.max_discharge_kw
      if export_kwh < 1 then none
      else
        let profit := vc.calculate_arbitrage_value current_price (60/100) export_kwh
        if profit < a.min_profit then none
        else
          let priority : ℤ := if current_price > 5 then 2 else 3
          some { agent_name := "ArbitrageAgent"
                 action := .exportGrid
                 kwh := export_kwh
                 confidence := 70/100
                 value_sek := profit
                 priority := priority }

/-- ArbitrageAgent.analyze: night hours delegate to charging,
consumption hours to self-consumption, high-price idle hours to export. -/
def ArbitrageAgent.analyze (a : ArbitrageAgent) (vc : ValueCalculator)
    (ctx : BatteryContext) : Option AgentRecommendation :=
  if ctx.hour ≤ 5 then a.analyze_charging vc ctx
  else if ctx.consumption_kw > 0 then a.analyze_self_consumption vc ctx
  else if ctx.spot_price_sek_kwh ≥ a.min_export_price then a.analyze_export vc ctx
  else none

/-! ## Stable descending sort

Python list.sort(key=k, reverse=True) is a stable sort placing greater
keys first.  The insertion sort below has the same input/output behaviour:
an element is inserted after every earlier element with a strictly greater
key and before the first with a key not greater, so equal-key elements
keep their original order. -/

/-- Stable descending insertion of one element. -/
def pyInsertDesc (gt : α → α → Bool) (x : α) : List α → List α
  | [] => [x]
  | y :: ys => if gt y x then y :: pyInsertDesc gt x ys else x :: y :: ys

/-- Stable descending sort, as produced by sorted(xs, reverse=True). -/
def pySortDesc (gt : α → α → Bool) : List α → List α
  | [] => []
  | x :: xs => pyInsertDesc gt x (pySortDesc gt xs)

theorem mem_pyInsertDesc {gt : α → α → Bool} {x a : α} :
    ∀ {l : List α}, a ∈ pyInsertDesc gt x l ↔ a = x ∨ a ∈ l := by
  intro l
  induction l with
  | nil => simp [pyInsertDesc]
  | cons y ys ih =>
    by_cases h : gt y x = true
    · simp only [pyInsertDesc, h, if_true, List.mem_cons, ih]
      tauto
    · simp only [pyInsertDesc, h, Bool.false_eq_true, if_false, List.mem_cons]

theorem mem_pySortDesc {gt : α → α → Bool} {a : α} :
    ∀ {l : List α}, a ∈ pySortDesc gt l ↔ a ∈ l := by
  intro l
  induction l with
  | nil => simp [pySortDesc]
  | cons y ys ih => simp [pySortDesc, mem_pyInsertDesc, ih]

/-! ## BossAgent hourly arbitration (src/agents/boss_agent.py) -/

/-- Comparison key of BossAgent._analyze_hourly:
recommendations.sort(key=lambda r: (r.priority, r.value_sek),
reverse=True) places the numerically greatest (priority, value) tuple
first. -/
def bossKeyGT (r1 r2 : AgentRecommendation) : Bool :=
  decide (r1.priority > r2.priority ∨
    (r1.priority = r2.priority ∧ r1.value_sek > r2.value_sek))

/-- Recommendation chooser of BossAgent._analyze_hourly steps 4-5: the
collected list (override, then peak shaving, then arbitrage) is sorted by
(priority, value) descending and the first element is chosen; there is no
veto inspection in this path.  The source wraps the result as
BossDecision(action=chosen.action, kwh=chosen.kwh, ...); the reserve and
capacity computations of steps 1-2 do not influence the choice. -/
def bossChooseRecommendation (recs : List AgentRecommendation) :
    Option AgentRecommendation :=
  match recs with
  | [] => none
  | _ => (pySortDesc bossKeyGT recs).head?

/-- Recommendation collection of BossAgent._analyze_hourly step 4. -/
def bossHourlyRecommendations (o : RealTimeOverrideAgent)
    (p : PeakShavingAgent) (a : ArbitrageAgent) (vc : ValueCalculator)
    (ctx : BatteryContext) : List AgentRecommendation :=
  (o.analyze ctx).toList ++ (p.analyze vc ctx).toList ++ (a.analyze vc ctx).toList

/-- BossAgent._analyze_hourly reduced to the chosen recommendation (the
returned BossDecision copies its action and kwh verbatim). -/
def bossAnalyzeHourly (o : RealTimeOverrideAgent) (p : PeakShavingAgent)
    (a : ArbitrageAgent) (vc : ValueCalculator) (ctx : BatteryContext) :
    Option AgentRecommendation :=
  bossChooseRecommendation (bossHourlyRecommendations o p a vc ctx)

/-! ## Orchestrator (src/agents/orchestrator.py) -/

/-- Final decision record of orchestrator.OrchestratorDecision (numeric
fields; reasoning, contributing agents and metadata omitted). -/
structure OrchestratorDecision where
  action : AgentAction
  kwh : ℚ
  total_value_sek : ℚ
  confidence : ℚ
  had_conflicts : Bool
deriving DecidableEq, Repr

/-- Orchestrator._check_for_vetos: among veto-flagged recommendations,
Python max with key (priority, value_sek) keeps the first strict maximum. -/
def checkForVetos (recs : List AgentRecommendation) :
    Option AgentRecommendation :=
  match recs.filter (fun r => r.is_veto) with
  | [] => none
  | v :: vs =>
    some (vs.foldl
      (fun acc x =>
        if x.priority > acc.priority ∨
            (x.priority = acc.priority ∧ x.value_sek > acc.value_sek)
        then x else acc) v)

/-- Orchestrator._calculate_true_value: the agent-claimed value adjusted
by simulating the post-action grid import and deducting peak-creation,
reserve-proximity and opportunity-cost penalties. -/
def calculateTrueValue (vc : ValueCalculator) (ctx : BatteryContext)
    (rec : AgentRecommendation) : ℚ :=
  let value0 := rec.value_sek
  let simulated0 := ctx.grid_import_kw
  let simulated :=
    match rec.action with
    | .charge => simulated0 + rec.kwh
    | .discharge => max 0 (simulated0 - rec.kwh)
    | _ => simulated0
  let value1 :=
    if ctx.is_measurement_hour then
      let current_threshold := ctx.peak_threshold_kw
      if 3 ≤ ctx.top_n_peaks.length ∧ simulated > current_threshold then
        let peak_increase_kw := simulated - current_threshold
        let monthly_peak_cost := peak_increase_kw * vc.effect_tariff
        let daily_peak_cost := monthly_peak_cost / 30
        let v := value0 - daily_peak_cost
        if daily_peak_cost > rec.value_sek then -daily_peak_cost else v
      else if rec.action = .charge ∧ simulated > current_threshold * (11/10) then
        value0 * (1/2)
      else value0
    else value0
  let value2 :=
    if rec.action = .discharge ∧ ctx.soc_kwh - rec.kwh < ctx.min_soc_kwh + 2 then
      value1 * (7/10)
    else value1
  if rec.action = .discharge ∧ 3 ≤ rec.priority ∧ 6 < ctx.spot_forecast.length then
    let avg_future_price := ((ctx.spot_forecast.drop 1).take 6).sum / 6
    if avg_future_price > ctx.spot_price_sek_kwh * (13/10) then value2 * (8/10)
    else value2
  else value2

/-- Orchestrator._try_combine_recommendations: when all recommendations
share one action they are merged (kwh is the maximum, value the sum of
the raw claimed values, confidence the average), with a feasibility clamp
for discharge and charge. -/
def tryCombineRecommendations (ctx : BatteryContext)
    (recs : List AgentRecommendation) : Option OrchestratorDecision :=
  match recs with
  | [] => none
  | r0 :: _ =>
    if recs.all (fun r => r.action = r0.action) then
      let action := r0.action
      let total_kwh0 := recs.foldl (fun m r => max m r.kwh) r0.kwh
      let total_kwh? : Option ℚ :=
        if action = .discharge then
          let available := ctx.soc_kwh - ctx.min_soc_kwh
          let t := if total_kwh0 > available then available else total_kwh0
          if t < 1/2 then none else some t
        else if action = .charge then
          let room := ctx.capacity_kwh - ctx.soc_kwh
          let t := if total_kwh0 > room then room else total_kwh0
          if t < 1/2 then none else some t
        else some total_kwh0
      match total_kwh? with
      | none => none
      | some total_kwh =>
        some { action := action
               kwh := total_kwh
               total_value_sek := (recs.map (fun r => r.value_sek)).sum
               confidence := (recs.map (fun r => r.confidence)).sum / recs.length
               had_conflicts := false }
    else none

/-- Orchestrator._resolve_conflicts (with use_llm false, as constructed
everywhere in the repository): try to combine; otherwise rank by the
true-value adjustment, but build the returned decision from the chosen
raw value_sek of the chosen recommendation.  A negative best adjusted value is not
suppressed here. -/
def resolveConflicts (vc : ValueCalculator) (ctx : BatteryContext)
    (recs : List AgentRecommendation) : Option OrchestratorDecision :=
  match tryCombineRecommendations ctx recs with
  | some d => some d
  | none =>
    let optimized := recs.map (fun r => (calculateTrueValue vc ctx r, r))
    let sorted := pySortDesc (fun x y => decide (x.1 > y.1)) optimized
    match sorted with
    | [] => none
    | best :: rest =>
      let clearWinner : OrchestratorDecision :=
        { action := best.2.action
          kwh := best.2.kwh
          total_value_sek := best.2.value_sek
          confidence := best.2.confidence
          had_conflicts := true }
      match rest with
      | [] => some clearWinner
      | second :: _ =>
        if second.1 > best.1 * (9/10) then
          let chosen :=
            if best.2.agent_name = "PeakShavingAgent" then best.2
            else if second.2.agent_name = "PeakShavingAgent" then second.2
            else best.2
          some { action := chosen.action
                 kwh := chosen.kwh
                 total_value_sek := chosen.value_sek
                 confidence := chosen.confidence * (9/10)
                 had_conflicts := true }
        else some clearWinner

/-- Orchestrator.make_decision steps 2-5, over the list of
recommendations collected from the enabled agents in step 1: empty list
means no action; a veto short-circuits; a single recommendation is
accepted at its adjusted value or suppressed when that is negative;
several recommendations go to conflict resolution. -/
def makeDecision (vc : ValueCalculator) (ctx : BatteryContext)
    (recs : List AgentRecommendation) : Option OrchestratorDecision :=
  match recs with
  | [] => none
  | _ =>
    match checkForVetos recs with
    | some veto =>
      some { action := veto.action
             kwh := veto.kwh
             total_value_sek := veto.value_sek
             confidence := veto.confidence
             had_conflicts := decide (1 < recs.length) }
    | none =>
      match recs with
      | [rec] =>
        let adjusted_value := calculateTrueValue vc ctx rec
        if adjusted_value < 0 then none
        else
          some { action := rec.action
                 kwh := rec.kwh
                 total_value_sek := adjusted_value
                 confidence := rec.confidence
                 had_conflicts := false }
      | _ => resolveConflicts vc ctx recs

/-! ## DailyOptimizer (src/agents/daily_optimizer.py) -/

/-- Input record of daily_optimizer.DailyPlanInput. -/
structure DailyPlanInput where
  consumption_forecast : List ℚ
  solar_forecast : List ℚ
  price_forecast : List ℚ
  current_soc_kwh : ℚ
  capacity_kwh : ℚ
  min_soc_kwh : ℚ
  max_charge_kw : ℚ
  max_discharge_kw : ℚ
  efficiency : ℚ
  grid_fee_sek_kwh : ℚ
  energy_tax_sek_kwh : ℚ
  vat_rate : ℚ
  effect_tariff_sek_kw_month : ℚ
  current_peak_threshold_kw : ℚ
  peak_reserve_kwh : ℚ := 10
  is_measurement_hour : List Bool
deriving DecidableEq, Repr

/-- Output record of daily_optimizer.DailyPlanOutput (reasoning string
omitted). -/
structure DailyPlanOutput where
  charge_schedule : List ℚ
  discharge_schedule : List ℚ
  soc_schedule : List ℚ
  grid_import_schedule : List ℚ
  expected_cost : ℚ
  expected_peak_kw : ℚ
  expected_savings : ℚ
  optimization_status : String
deriving DecidableEq, Repr

/-- Measurement-hour flag for hour h of the plan inputs. -/
def DailyPlanInput.meas (i : DailyPlanInput) (h : ℕ) : Bool :=
  i.is_measurement_hour.getD h false

/-- Per-hour total import price of the optimiser:
(spot + grid_fee + energy_tax) * (1 + vat). -/
def DailyPlanInput.totalPrice (i : DailyPlanInput) (h : ℕ) : ℚ :=
  (i.price_forecast.getD h 0 + i.grid_fee_sek_kwh + i.energy_tax_sek_kwh) * (1 + i.vat_rate)

/-- Phase 1 of _optimize_heuristic: the non-measurement hours with total
price below 1 SEK/kWh, paired with their prices, stably sorted by
ascending price (Python charging_hours.sort(key=lambda x: x[1])). -/
def chargingHoursOf (i : DailyPlanInput) : List (ℕ × ℚ) :=
  pySortDesc (fun y x => decide (y.2 < x.2))
    (((List.range 24).filter
        (fun h => ¬i.meas h ∧ i.totalPrice h < 1)).map
      (fun h => (h, i.totalPrice h)))

/-- Phase 3 of _optimize_heuristic: greedily fill the charge schedule at
the cheap hours, breaking out as soon as the running SoC reaches the
target.  Returns the SoC after planned charging and the charge schedule. -/
def heuristicPhase3 (i : DailyPlanInput) (target : ℚ) :
    List (ℕ × ℚ) → ℚ → List ℚ → ℚ × List ℚ
  | [], soc, sched => (soc, sched)
  | hp :: rest, soc, sched =>
    if soc ≥ target then (soc, sched)
    else
      let room := min (target - soc) (min i.max_charge_kw (i.capacity_kwh - soc))
      if room > 1/2 then
        heuristicPhase3 i target rest (soc + room * i.efficiency) (sched.set hp.1 room)
      else heuristicPhase3 i target rest soc sched

/-- One hour of phase 4 of _optimize_heuristic.  The state is the running
SoC and the discharge, SoC and grid-import schedules.  As in the source,
the SoC is incremented again for any charging hour (the phase-3 charging
was already applied to the starting SoC), a measurement hour with net
load above 5 kW discharges towards a 5 kW grid import, and the
grid import for the hour is max(0, net - discharge + charge). -/
def heuristicPhase4Step (i : DailyPlanInput) (chargeSched : List ℚ)
    (st : ℚ × List ℚ × List ℚ × List ℚ) (h : ℕ) : ℚ × List ℚ × List ℚ × List ℚ :=
  let soc1 :=
    if chargeSched.getD h 0 > 0 then st.1 + chargeSched.getD h 0 * i.efficiency else st.1
  let net := i.consumption_forecast.getD h 0 - i.solar_forecast.getD h 0
  let sd : ℚ × List ℚ :=
    if i.meas h ∧ net > 5 then
      let reduction_needed := net - 5
      let available := soc1 - i.min_soc_kwh
      let actual_discharge := min reduction_needed (min available i.max_discharge_kw)
      if actual_discharge > 1/2 then (soc1 - actual_discharge, st.2.1.set h actual_discharge)
      else (soc1, st.2.1)
    else (soc1, st.2.1)
  let socSched := st.2.2.1.set h sd.1
  let gridSched := st.2.2.2.set h (max 0 (net - sd.2.getD h 0 + chargeSched.getD h 0))
  (sd.1, sd.2, socSched, gridSched)

/-- DailyOptimizer._optimize_heuristic.  Note that the returned
optimization_status is the literal string used by the source. -/
def optimizeHeuristic (i : DailyPlanInput) : DailyPlanOutput :=
  let charging_hours := chargingHoursOf i
  let target_soc := min (i.capacity_kwh - i.peak_reserve_kwh) (i.capacity_kwh * (6/10))
  let p3 := heuristicPhase3 i target_soc charging_hours i.current_soc_kwh (List.replicate 24 0)
  let charge_schedule := p3.2
  let p4 := (List.range 24).foldl (heuristicPhase4Step i charge_schedule)
    (p3.1, List.replicate 24 0, List.replicate 24 i.current_soc_kwh, List.replicate 24 0)
  let discharge_schedule := p4.2.1
  let soc_schedule := p4.2.2.1
  let grid_import_schedule := p4.2.2.2
  let total_cost := ((List.range 24).map
    (fun h => grid_import_schedule.getD h 0 * i.totalPrice h)).sum
  let peak_kw := (List.range 24).foldl
    (fun pk h => if i.meas h then max pk (grid_import_schedule.getD h 0) else pk) 0
  let baseline_cost := ((List.range 24).map
    (fun h => max 0 (i.consumption_forecast.getD h 0 - i.solar_forecast.getD h 0)
        * i.totalPrice h)).sum
  { charge_schedule := charge_schedule
    discharge_schedule := discharge_schedule
    soc_schedule := soc_schedule
    grid_import_schedule := grid_import_schedule
    expected_cost := total_cost
    expected_peak_kw := peak_kw
    expected_savings := baseline_cost - total_cost
    optimization_status := "optimal" }

/-- DailyOptimizer._fallback_plan: all-zero schedules, status failed. -/
def fallbackPlan (i : DailyPlanInput) : DailyPlanOutput :=
  { charge_schedule := List.replicate 24 0
    discharge_schedule := List.replicate 24 0
    soc_schedule := List.replicate 24 i.current_soc_kwh
    grid_import_schedule := List.replicate 24 0
    expected_cost := 0
    expected_peak_kw := 0
    expected_savings := 0
    optimization_status := "failed" }

/-- Constraint set of the linear program built in
DailyOptimizer._optimize_with_pulp: variable bounds, hourly energy
balance, the SoC recurrence, and the measurement-hour constraints
(no charging, peak tracking, reserve floor).  A plan extracted from an
optimal LP solution satisfies exactly these constraints. -/
def LPFeasible (i : DailyPlanInput) (charge discharge soc grid : ℕ → ℚ)
    (peak : ℚ) : Prop :=
  (∀ h < 24, 0 ≤ charge h ∧ charge h ≤ i.max_charge_kw) ∧
  (∀ h < 24, 0 ≤ discharge h ∧ discharge h ≤ i.max_discharge_kw) ∧
  (∀ h < 24, i.min_soc_kwh ≤ soc h ∧ soc h ≤ i.capacity_kwh) ∧
  (∀ h < 24, 0 ≤ grid h) ∧
  0 ≤ peak ∧
  (∀ h < 24, grid h =
    (i.consumption_forecast.getD h 0 - i.solar_forecast.getD h 0)
      - discharge h + charge h) ∧
  soc 0 = i.current_soc_kwh + charge 0 * i.efficiency - discharge 0 ∧
  (∀ h, 0 < h → h < 24 → soc h = soc (h - 1) + charge h * i.efficiency - discharge h) ∧
  (∀ h < 24, i.meas h = true →
    charge h = 0 ∧ peak ≥ grid h ∧ soc h ≥ i.min_soc_kwh + i.peak_reserve_kwh)

/-! ## PeakTracker (src/agents/peak_tracker.py)

The Python class caches top-N lists and thresholds and invalidates both
caches on every update, so its observable behaviour equals the cache-free
recomputation embedded here. -/

/-- Peak tracker state: configuration plus the per-month sample lists. -/
structure PeakTracker where
  measurement_start : ℕ := 6
  measurement_end : ℕ := 23
  top_n : ℕ := 3
  monthly_peaks : List (String × List (Timestamp × ℚ)) := []
deriving DecidableEq, Repr

/-- PeakTracker._is_measurement_hour. -/
def PeakTracker.isMeasurementHour (t : PeakTracker) (ts : Timestamp) : Bool :=
  decide (t.measurement_start ≤ ts.hour ∧ ts.hour ≤ t.measurement_end)

/-- Samples recorded for one month (empty when the month is absent). -/
def PeakTracker.peaksFor (t : PeakTracker) (m : String) : List (Timestamp × ℚ) :=
  (t.monthly_peaks.lookup m).getD []

/-- Appends a sample to a month bucket, creating the bucket if absent. -/
def appendMonthSample : List (String × List (Timestamp × ℚ)) → String →
    Timestamp × ℚ → List (String × List (Timestamp × ℚ))
  | [], m, p => [(m, [p])]
  | (k, v) :: rest, m, p =>
    if k = m then (k, v ++ [p]) :: rest else (k, v) :: appendMonthSample rest m p

/-- PeakTracker.update: no-op outside the measurement window, otherwise
append the (timestamp, kW) sample to the month keyed by strftime. -/
def PeakTracker.update (t : PeakTracker) (ts : Timestamp) (grid_import_kw : ℚ) :
    PeakTracker :=
  if ¬t.isMeasurementHour ts then t
  else { t with monthly_peaks := appendMonthSample t.monthly_peaks ts.monthKey (ts, grid_import_kw) }

/-- PeakTracker.get_top_n_peaks: the kW values of the month sorted
descending, first top_n taken. -/
def PeakTracker.get_top_n_peaks (t : PeakTracker) (m : String) : List ℚ :=
  (pySortDesc (fun y x => decide (y > x)) ((t.peaksFor m).map (fun p => p.2))).take t.top_n

/-- PeakTracker.get_top_n_average: arithmetic mean of the top-N peaks,
0 when none are recorded. -/
def PeakTracker.get_top_n_average (t : PeakTracker) (m : String) : ℚ :=
  let tp := t.get_top_n_peaks m
  if tp = [] then 0 else tp.sum / tp.length

/-- PeakTracker.get_threshold: the last (smallest) of the top-N peaks,
0 while fewer than top_n samples exist. -/
def PeakTracker.get_threshold (t : PeakTracker) (m : String) : ℚ :=
  let tp := t.get_top_n_peaks m
  if tp.length < t.top_n then 0 else (tp.getLast?).getD 0

/-! ## Simulator loop tick (src/battery_simulator.py)

simulate_battery_operation translates the coordinator decision of a tick
into physical quantities.  The translation below is the branch body
shared verbatim by the Boss-agent path (lines 1178-1284) and the
multi-agent path (lines 1295-1367).  The HOLD case also covers the
absence of a decision, whose fallback block is identical. -/

/-- Physical outcome of one simulated hour. -/
structure TickPhysical where
  charge : ℚ
  discharge : ℚ
  grid_import : ℚ
  grid_export : ℚ
  self_consumption : ℚ
  soc : ℚ
deriving DecidableEq, Repr

/-- Decision-to-physics translation of the simulator loop.  capacity and
power are the battery limits, soc the state of charge entering the hour,
net = consumption - solar. -/
def applyLoopDecision (capacity power efficiency soc net consumption solar : ℚ)
    (decision : Option (AgentAction × ℚ)) : TickPhysical :=
  match decision with
  | some (.charge, kwh) =>
    let charge := min kwh (min (capacity - soc) power)
    { charge := charge
      discharge := 0
      grid_import := if net > 0 then net + charge else charge
      grid_export := 0
      self_consumption := solar
      soc := soc + charge * efficiency }
  | some (.discharge, kwh) =>
    let discharge := min kwh (min soc (min power (max 0 net)))
    if discharge ≥ net then
      { charge := 0
        discharge := discharge
        grid_import := 0
        grid_export := discharge - max 0 net
        self_consumption := solar + max 0 net
        soc := soc - discharge }
    else
      { charge := 0
        discharge := discharge
        grid_import := max 0 (net - discharge)
        grid_export := 0
        self_consumption := solar + discharge
        soc := soc - discharge }
  | some (.exportGrid, kwh) =>
    let discharge := min kwh (min soc power)
    { charge := 0
      discharge := discharge
      grid_import := max 0 net
      grid_export := discharge
      self_consumption := solar
      soc := soc - discharge }
  | _ =>
    if net > 0 then
      { charge := 0, discharge := 0, grid_import := net, grid_export := 0
        self_consumption := solar, soc := soc }
    else
      { charge := 0, discharge := 0, grid_import := 0, grid_export := |net|
        self_consumption := consumption, soc := soc }

/-- One tick of the Boss-agent branch of simulate_battery_operation
(lines 1170-1284): the physical translation runs, and the peak tracker is
returned unchanged — that branch contains no peak_tracker.update call. -/
def bossModeTick (tracker : PeakTracker) (_ts : Timestamp)
    (capacity power efficiency soc net consumption solar : ℚ)
    (decision : Option (AgentAction × ℚ)) : TickPhysical × PeakTracker :=
  (applyLoopDecision capacity power efficiency soc net consumption solar decision, tracker)

/-- One tick of the multi-agent branch of simulate_battery_operation
(lines 1287-1371): after the physical translation the loop feeds the
post-battery grid import into the peak tracker. -/
def multiAgentTick (tracker : PeakTracker) (ts : Timestamp)
    (capacity power efficiency soc net consumption solar : ℚ)
    (decision : Option (AgentAction × ℚ)) : TickPhysical × PeakTracker :=
  let phys := applyLoopDecision capacity power efficiency soc net consumption solar decision
  (phys, tracker.update ts phys.grid_import)

/-! ## BossAgent plan execution (src/agents/boss_agent.py) -/

/-- BossAgent._should_override_plan, under the guarantee of the caller that a
daily plan exists: false when the consumption forecast is empty or too
short for the hour, else the 30-percent-over-forecast and above-10-kW
spike test. -/
def shouldOverridePlan (ctx : BatteryContext) : Bool :=
  if ctx.consumption_forecast = [] then false
  else if ctx.consumption_forecast.length ≤ ctx.hour then false
  else decide (ctx.consumption_kw > ctx.consumption_forecast.getD ctx.hour 0 * (13/10)
    ∧ ctx.consumption_kw > 10)

/-- BossAgent._emergency_override.  When the peak-shaving specialist
returns no recommendation the source returns None.  When it returns one,
the source constructs ReserveRequirement(required_reserve_kwh=0.0,
risk_level=..., reasoning=..., percentile_used=99), omitting the nine
further required fields of that dataclass (timestamp, hour, day_type,
expected_peak_kw, grid_import_limit_kw, raw_reserve_kwh, safety_buffer,
confidence, consumption_stats), and then CapacityAllocation(...,
reasoning=...), passing a keyword the dataclass does not declare and
omitting minimum_soc_kwh; Python raises TypeError at the first of these
calls, which the embedding renders as Except.error. -/
def emergencyOverride (p : PeakShavingAgent) (vc : ValueCalculator)
    (ctx : BatteryContext) : Except String (Option (AgentAction × ℚ)) :=
  match p.analyze vc ctx with
  | none => .ok none
  | some _ =>
    .error "TypeError: ReserveRequirement.__init__() missing 9 required positional arguments"

/-- BossAgent._execute_daily_plan, for an existing plan.  The capacity
allocation computed by the source between the override check and the plan
branches (via calculate_reserve and allocate_capacity) is passed in as
alloc; it only caps the returned kWh.  Planned charge above 0.5 kWh
charges, else planned discharge above 0.5 kWh discharges, else hold
(None). -/
def executeDailyPlan (p : PeakShavingAgent) (vc : ValueCalculator)
    (plan : DailyPlanOutput) (alloc : CapacityAllocation)
    (ctx : BatteryContext) : Except String (Option (AgentAction × ℚ)) :=
  if shouldOverridePlan ctx then emergencyOverride p vc ctx
  else
    let planned_charge := plan.charge_schedule.getD ctx.hour 0
    let planned_discharge := plan.discharge_schedule.getD ctx.hour 0
    if planned_charge > 1/2 then
      .ok (some (.charge, min planned_charge alloc.max_charge_this_hour_kwh))
    else if planned_discharge > 1/2 then
      .ok (some (.discharge, min planned_discharge alloc.max_discharge_this_hour_kwh))
    else .ok none

/-! ## Shared concrete fixtures -/

/-- RealTimeOverrideAgent with constructor defaults. -/
def oaDefault : RealTimeOverrideAgent := {}

/-- PeakShavingAgent with constructor defaults. -/
def psDefault : PeakShavingAgent := {}

/-- ArbitrageAgent with constructor defaults. -/
def arbDefault : ArbitrageAgent := {}

/-- Evening weekday timestamp inside the measurement window. -/
def ts18 : Timestamp := { hour := 18, dayofweek := 2, monthKey := "2024-01" }

/-- Peak tracker with constructor defaults and no recorded samples. -/
def emptyPT : PeakTracker := {}

/-- Sample statistics for one (hour, day-type) slot. -/
def sampleStats : ConsumptionStats :=
  { hour := 18
    day_type := .weekday
    time_of_day := .evening
    sample_count := 10
    mean_kw := 3
    median_kw := 3
    std_kw := 1
    min_kw := 1
    max_kw := 8
    p50_kw := 3
    p75_kw := 4
    p90_kw := 5
    p95_kw := 6
    p99_kw := 7 }

/-- Base context fixture: evening measurement hour. -/
def ctxBase : BatteryContext :=
  { ts := ts18
    hour := 18
    soc_kwh := 30
    capacity_kwh := 40
    max_charge_kw := 12
    max_discharge_kw := 12
    efficiency := 19/20
    consumption_kw := 3
    solar_production_kw := 0
    grid_import_kw := 3
    spot_price_sek_kwh := 1
    import_cost_sek_kwh := 2275/1000
    export_revenue_sek_kwh := 58/100
    spot_forecast := []
    consumption_forecast := []
    current_month := "2024-01"
    top_n_peaks := [12, 11, 10]
    peak_threshold_kw := 10
    is_measurement_hour := true
    avg_consumption_kw := 3
    peak_consumption_kw := 12
    min_soc_kwh := 1
    target_morning_soc_kwh := 24 }

/-! ## C3: arbitrage profit formula -/

/-- C3.  The source multiplies the already-kwh-scaled export revenue by
effective_kwh = kwh * efficiency once more, so at discharge spot 2.00,
charge spot 0.50 and kwh = 2 (default tariffs, efficiency 0.95) the code
returns 2.704 SEK while the specification formula
export_revenue(discharge, kwh * eff) - import_cost(charge, kwh, vat)
gives -0.298 SEK: the code value is quadratic in kwh, not linear, and the
two sides differ at this input. -/
theorem c3_arbitrage_value_deviates :
    vcDefault.calculate_arbitrage_value 2 (1/2) 2 = 338/125 ∧
    specArbitrageValue vcDefault 2 (1/2) 2 = -(149/500) ∧
    vcDefault.calculate_arbitrage_value 2 (1/2) 2 ≠ specArbitrageValue vcDefault 2 (1/2) 2 := by
  have h1 : vcDefault.calculate_arbitrage_value 2 (1/2) 2 = 338/125 := by
    norm_num [ValueCalculator.calculate_arbitrage_value,
      ValueCalculator.calculate_export_revenue, ValueCalculator.calculate_import_cost, vcDefault]
  have h2 : specArbitrageValue vcDefault 2 (1/2) 2 = -(149/500) := by
    norm_num [specArbitrageValue, ValueCalculator.calculate_export_revenue,
      ValueCalculator.calculate_import_cost, vcDefault]
  refine ⟨h1, h2, ?_⟩
  rw [h1, h2]
  norm_num

/-! ## C9: heuristic and fallback plan status -/

/-- C9.  The heuristic path of the daily optimiser labels every plan it
produces with optimization_status "optimal" (the source literal), never
"suboptimal"; only the fallback path returns "failed". -/
theorem c9_heuristic_status_optimal :
    (∀ i : DailyPlanInput, (optimizeHeuristic i).optimization_status = "optimal") ∧
    (∀ i : DailyPlanInput, (fallbackPlan i).optimization_status = "failed") :=
  ⟨fun _ => rfl, fun _ => rfl⟩

/-! ## C10: unknown percentile falls back to P95 -/

/-- C10.  ConsumptionStats.get_percentile returns p95_kw for every
percentile outside the five stored keys, and consequently the reserve
calculator treats an override of 85 as the 95th percentile whenever
statistics exist for the slot. -/
theorem c10_percentile_default_p95 :
    (∀ (s : ConsumptionStats) (p : ℤ), p ≠ 50 → p ≠ 75 → p ≠ 90 → p ≠ 95 → p ≠ 99 →
      s.get_percentile p = s.p95_kw) ∧
    (∀ (rcalc : DynamicReserveCalculator) (ts : Timestamp) (soc : ℚ)
        (stats : ConsumptionStats),
      rcalc.analyzer.getStats ts.hour (dayTypeOf ts) = some stats →
      (rcalc.calculate_reserve ts soc (some 85)).expected_peak_kw = stats.p95_kw) := by
  constructor
  · intro s p h50 h75 h90 h95 h99
    simp [ConsumptionStats.get_percentile, h50, h75, h90, h95, h99]
  · intro rcalc ts soc stats h
    simp [DynamicReserveCalculator.calculate_reserve, h, ConsumptionStats.get_percentile]

/-- Reserve calculator fixture whose analyzer has the sample statistics
for every slot. -/
def rcWithStats : DynamicReserveCalculator :=
  { analyzer := ⟨fun _ _ => some sampleStats⟩ }

/-- Witness for C10 at percentile 85 and the sample statistics. -/
theorem c10_percentile_default_p95_witness :
    sampleStats.get_percentile 85 = sampleStats.p95_kw ∧
    (rcWithStats.calculate_reserve ts18 10 (some 85)).expected_peak_kw = sampleStats.p95_kw :=
  ⟨c10_percentile_default_p95.1 sampleStats 85 (by decide) (by decide) (by decide)
      (by decide) (by decide),
    c10_percentile_default_p95.2 rcWithStats ts18 10 sampleStats rfl⟩

/-! ## C7: reserve clamping -/

/-- Reserve calculator fixture with no statistics and a grid import limit
equal to the 8 kW expected peak of the fallback. -/
def rcNoStats : DynamicReserveCalculator :=
  { analyzer := ⟨fun _ _ => none⟩, grid_import_limit_kw := 8 }

/-- C7 counterexample.  With no statistics for the slot and
grid_import_limit_kw = 8, the fallback path returns
required_reserve_kwh = 0, strictly below the configured
min_reserve_kwh = 2: the fallback result is not clamped to
[min_reserve, max_reserve]. -/
theorem c7_fallback_unclamped :
    (rcNoStats.calculate_reserve ts18 10 none).required_reserve_kwh = 0 ∧
    rcNoStats.min_reserve_kwh = 2 ∧
    ¬(rcNoStats.min_reserve_kwh ≤ (rcNoStats.calculate_reserve ts18 10 none).required_reserve_kwh) := by
  have h : (rcNoStats.calculate_reserve ts18 10 none).required_reserve_kwh = 0 := by
    simp [DynamicReserveCalculator.calculate_reserve, rcNoStats,
      DynamicReserveCalculator.create_fallback_reserve, ts18, dayTypeOf]
  refine ⟨h, rfl, ?_⟩
  rw [h]
  norm_num [rcNoStats]

/-- C7 amended.  Whenever statistics exist for the (hour, day-type) slot,
the reserve calculator returns exactly
clamp(raw_reserve_kwh * safety_buffer, min_reserve, max_reserve), which
lies within [min_reserve, max_reserve] provided min_reserve does not
exceed max_reserve; the no-statistics fallback instead returns its raw
fallback reserve times the safety buffer without clamping. -/
theorem c7_reserve_clamped_with_stats :
    ∀ (rcalc : DynamicReserveCalculator) (ts : Timestamp) (soc : ℚ)
      (ov : Option ℤ) (stats : ConsumptionStats),
      rcalc.analyzer.getStats ts.hour (dayTypeOf ts) = some stats →
      rcalc.min_reserve_kwh ≤ rcalc.max_reserve_kwh →
      (rcalc.calculate_reserve ts soc ov).required_reserve_kwh =
        max rcalc.min_reserve_kwh (min rcalc.max_reserve_kwh
          ((rcalc.calculate_reserve ts soc ov).raw_reserve_kwh * rcalc.safety_buffer)) ∧
      rcalc.min_reserve_kwh ≤ (rcalc.calculate_reserve ts soc ov).required_reserve_kwh ∧
      (rcalc.calculate_reserve ts soc ov).required_reserve_kwh ≤ rcalc.max_reserve_kwh := by
  intro rcalc ts soc ov stats h hmm
  refine ⟨?_, ?_, ?_⟩
  · simp [DynamicReserveCalculator.calculate_reserve, h]
  · simp only [DynamicReserveCalculator.calculate_reserve, h]
    exact le_max_left _ _
  · simp only [DynamicReserveCalculator.calculate_reserve, h]
    exact max_le hmm (min_le_left _ _)

/-! ## C1: veto handling in hourly arbitration -/

/-- Context in which both the real-time override (veto, priority 1) and
the peak-shaving specialist (no veto, priority 2) fire: consumption
10.5 kW during a measurement hour, threshold 10 kW with three recorded
peaks. -/
def ctxC1 : BatteryContext :=
  { ctxBase with consumption_kw := 21/2, grid_import_kw := 21/2 }

/-- C1.  In BossAgent._analyze_hourly a veto-flagged recommendation does
not short-circuit: with reverse sorting on the numeric (priority, value)
key, the priority-2 peak-shaving recommendation is chosen over the
priority-1 (critical) veto override, so the chosen recommendation is not
veto-flagged although a veto is present. -/
theorem c1_veto_not_chosen :
    ((bossHourlyRecommendations oaDefault psDefault arbDefault vcDefault ctxC1).any
      (fun r => r.is_veto)) = true ∧
    ((bossAnalyzeHourly oaDefault psDefault arbDefault vcDefault ctxC1).map
      (fun r => (r.is_veto, r.priority))) = some (false, 2) := by
  norm_num [bossAnalyzeHourly, bossChooseRecommendation, bossHourlyRecommendations,
    bossKeyGT, pySortDesc, pyInsertDesc, RealTimeOverrideAgent.analyze,
    PeakShavingAgent.analyze, ArbitrageAgent.analyze,
    ArbitrageAgent.analyze_self_consumption, oaDefault, psDefault, arbDefault,
    vcDefault, ctxC1, ctxBase, ValueCalculator.calculate_peak_shaving_value,
    ValueCalculator.calculate_self_consumption_value, ValueCalculator.calculate_import_cost]

/-! ## C2: adjusted value in conflict resolution -/

/-- Context for C2: measurement hour, three recorded 5 kW peaks,
threshold 5 kW, pre-battery grid import 10 kW, SoC 10 kWh. -/
def ctxC2 : BatteryContext :=
  { ctxBase with
      soc_kwh := 10
      grid_import_kw := 10
      top_n_peaks := [5, 5, 5]
      peak_threshold_kw := 5 }

/-- Charge recommendation whose adjusted value is -20 SEK. -/
def recC2a : AgentRecommendation :=
  { agent_name := "A", action := .charge, kwh := 5, confidence := 1/2,
    value_sek := 1, priority := 3 }

/-- Export recommendation whose adjusted value is -10 SEK. -/
def recC2b : AgentRecommendation :=
  { agent_name := "B", action := .exportGrid, kwh := 2, confidence := 1/2,
    value_sek := 1/2, priority := 3 }

/-- C2.  With two conflicting recommendations whose true-value
adjustments are both negative (-20 and -10 SEK), the method
make_decision does not suppress the decision: it returns the export
recommendation, scored with the raw agent-claimed value_sek = 0.5 SEK
rather than the adjusted -10 SEK. -/
theorem c2_negative_adjusted_not_suppressed :
    calculateTrueValue vcDefault ctxC2 recC2a = -20 ∧
    calculateTrueValue vcDefault ctxC2 recC2b = -10 ∧
    makeDecision vcDefault ctxC2 [recC2a, recC2b] =
      some { action := .exportGrid, kwh := 2, total_value_sek := recC2b.value_sek,
             confidence := 1/2, had_conflicts := true } := by
  refine ⟨?_, ?_, ?_⟩
  · norm_num [calculateTrueValue, vcDefault, ctxC2, ctxBase, recC2a]
  · norm_num [calculateTrueValue, vcDefault, ctxC2, ctxBase, recC2b]
  · norm_num [makeDecision, checkForVetos, resolveConflicts, tryCombineRecommendations,
      calculateTrueValue, pySortDesc, pyInsertDesc, vcDefault, ctxC2, ctxBase,
      recC2a, recC2b]
    rfl

/-! ## C8: peak-shaving discharge sizing -/

/-- Context for C8: measurement hour, 20 kW consumption against a 4 kW
threshold (three recorded peaks), large SoC. -/
def ctxC8 : BatteryContext :=
  { ctxBase with
      soc_kwh := 40
      min_soc_kwh := 2
      consumption_kw := 20
      grid_import_kw := 20
      top_n_peaks := [4, 4, 4]
      peak_threshold_kw := 4 }

/-- C8 counterexample.  The peak-shaving policy fires with 16.4 kWh: the
subtracted target is min(target_peak, threshold * aggressive) = 3.6 kW
rather than target_peak = 5 kW, and no max-discharge clamp is applied, so
the recommended kWh exceeds max_discharge_kw = 12 and differs from the
claimed formula value 12. -/
theorem c8_exceeds_max_discharge :
    ((psDefault.analyze vcDefault ctxC8).map (fun r => r.kwh)) = some (82/5) ∧
    min (max 0 (ctxC8.grid_import_kw - psDefault.target_peak_kw))
      (min (ctxC8.soc_kwh - ctxC8.min_soc_kwh)
        (min ctxC8.max_discharge_kw ctxC8.consumption_kw)) = 12 ∧
    ¬((82:ℚ)/5 ≤ ctxC8.max_discharge_kw) := by
  refine ⟨?_, ?_, ?_⟩
  · norm_num [PeakShavingAgent.analyze, psDefault, vcDefault, ctxC8, ctxBase,
      ValueCalculator.calculate_peak_shaving_value,
      ValueCalculator.calculate_self_consumption_value, ValueCalculator.calculate_import_cost]
  · norm_num [ctxC8, ctxBase, psDefault]
  · norm_num [ctxC8, ctxBase]

/-- C8 amended.  Whenever the peak-shaving policy fires, the tick is a
measurement hour and the recommendation is a discharge of
max(0, projected_grid_import - min(target_peak_kw, threshold *
aggressive_multiplier)) clamped by the SoC above the floor and by current
consumption; the policy applies no max-discharge clamp, so the kWh can
exceed max_discharge_kw. -/
theorem c8_discharge_formula :
    ∀ (a : PeakShavingAgent) (vc : ValueCalculator) (ctx : BatteryContext),
      (a.analyze vc ctx).isSome = true →
      ctx.is_measurement_hour = true ∧
      (a.analyze vc ctx).map (fun r => (r.action, r.kwh)) =
        some (.discharge,
          min (max 0 (ctx.grid_import_kw
              - min a.target_peak_kw (ctx.peak_threshold_kw * a.aggressive_threshold)))
            (min (ctx.soc_kwh - ctx.min_soc_kwh) ctx.consumption_kw)) := by
  intro a vc ctx h
  simp only [PeakShavingAgent.analyze] at h ⊢
  split_ifs at h ⊢ with h1 h2 h3
  all_goals simp_all

/-- Witness for the amended C8 statement at the counterexample context. -/
theorem c8_discharge_formula_witness :
    ctxC8.is_measurement_hour = true ∧
    (psDefault.analyze vcDefault ctxC8).map (fun r => (r.action, r.kwh)) =
      some (.discharge,
        min (max 0 (ctxC8.grid_import_kw
            - min psDefault.target_peak_kw
                (ctxC8.peak_threshold_kw * psDefault.aggressive_threshold)))
          (min (ctxC8.soc_kwh - ctxC8.min_soc_kwh) ctxC8.consumption_kw)) :=
  c8_discharge_formula psDefault vcDefault ctxC8 (by
    norm_num [PeakShavingAgent.analyze, psDefault, vcDefault, ctxC8, ctxBase,
      ValueCalculator.calculate_peak_shaving_value,
      ValueCalculator.calculate_self_consumption_value, ValueCalculator.calculate_import_cost])

/-! ## C4: peak tracker feeding in the simulator loop -/

/-- C4.  The Boss-agent branch of the simulator loop never feeds the
peak tracker: for every decision the tracker is returned unchanged, so
after a measurement-hour tick with a 10 kW grid import the top-N average
is still 0, whereas the multi-agent branch records the sample and reports
the 10 kW average. -/
theorem c4_boss_mode_tracker_unfed :
    (∀ (tracker : PeakTracker) (ts : Timestamp)
      (capacity power efficiency soc net consumption solar : ℚ)
      (d : Option (AgentAction × ℚ)),
      (bossModeTick tracker ts capacity power efficiency soc net consumption solar d).2
        = tracker) ∧
    (bossModeTick emptyPT ts18 40 12 (19/20) 20 10 10 0 none).1.grid_import = 10 ∧
    emptyPT.isMeasurementHour ts18 = true ∧
    (bossModeTick emptyPT ts18 40 12 (19/20) 20 10 10 0 none).2.get_top_n_average "2024-01" = 0 ∧
    (multiAgentTick emptyPT ts18 40 12 (19/20) 20 10 10 0 none).2.get_top_n_average "2024-01" = 10 := by
  refine ⟨fun _ _ _ _ _ _ _ _ _ _ => rfl, ?_, ?_, ?_, ?_⟩
  · norm_num [bossModeTick, applyLoopDecision]
  · norm_num [PeakTracker.isMeasurementHour, emptyPT, ts18]
  · norm_num [bossModeTick, PeakTracker.get_top_n_average, PeakTracker.get_top_n_peaks,
      PeakTracker.peaksFor, emptyPT, pySortDesc]
  · norm_num [multiAgentTick, applyLoopDecision, PeakTracker.update,
      PeakTracker.isMeasurementHour, appendMonthSample, PeakTracker.get_top_n_average,
      PeakTracker.get_top_n_peaks, PeakTracker.peaksFor, emptyPT, ts18,
      pySortDesc, pyInsertDesc]

/-! ## C5: plan-override path -/

/-- Context for C5: measurement-hour tick where actual consumption 13 kW
exceeds the 4 kW forecast by more than 30 percent and exceeds 10 kW, and
the peak-shaving specialist fires. -/
def ctxC5 : BatteryContext :=
  { ctxBase with
      soc_kwh := 20
      consumption_kw := 13
      grid_import_kw := 13
      consumption_forecast := List.replicate 24 4 }

/-- Arbitrary existing plan for the C5 tick. -/
def planC5 : DailyPlanOutput :=
  { charge_schedule := List.replicate 24 0
    discharge_schedule := List.replicate 24 0
    soc_schedule := List.replicate 24 20
    grid_import_schedule := List.replicate 24 0
    expected_cost := 0
    expected_peak_kw := 0
    expected_savings := 0
    optimization_status := "optimal" }

/-- Arbitrary capacity allocation for the C5 tick. -/
def allocC5 : CapacityAllocation :=
  { total_capacity_kwh := 40, current_soc_kwh := 20, peak_shaving_reserve_kwh := 2,
    available_for_arbitrage_kwh := 17, minimum_soc_kwh := 1, can_charge := true,
    can_discharge := true, max_charge_this_hour_kwh := 12,
    max_discharge_this_hour_kwh := 12, opportunity_cost_sek := 0 }

/-- C5.  On the plan-override path the spike test fires and the
peak-shaving specialist returns a recommendation, but the override does
not terminate normally: constructing ReserveRequirement with only four of
its thirteen required dataclass fields raises TypeError, so the embedded
_execute_daily_plan returns an error instead of an OVERRIDE decision. -/
theorem c5_override_raises_type_error :
    shouldOverridePlan ctxC5 = true ∧
    (psDefault.analyze vcDefault ctxC5).isSome = true ∧
    executeDailyPlan psDefault vcDefault planC5 allocC5 ctxC5 =
      .error "TypeError: ReserveRequirement.__init__() missing 9 required positional arguments" := by
  refine ⟨?_, ?_, ?_⟩
  · norm_num [shouldOverridePlan, ctxC5, ctxBase]
  · norm_num [PeakShavingAgent.analyze, psDefault, vcDefault, ctxC5, ctxBase,
      ValueCalculator.calculate_peak_shaving_value,
      ValueCalculator.calculate_self_consumption_value, ValueCalculator.calculate_import_cost]
  · norm_num [executeDailyPlan, shouldOverridePlan, emergencyOverride,
      PeakShavingAgent.analyze, psDefault, vcDefault, ctxC5, ctxBase, planC5, allocC5,
      ValueCalculator.calculate_peak_shaving_value,
      ValueCalculator.calculate_self_consumption_value, ValueCalculator.calculate_import_cost]

/-! ## C6: no charging inside the measurement window -/

/-- Holds when an optional recommendation is absent or not a charge. -/
def optionNoCharge (o : Option AgentRecommendation) : Bool :=
  match o with
  | none => true
  | some r => decide (r.action ≠ AgentAction.charge)

/-- Holds when a plan-execution outcome is an error, a hold, or a
non-charge action. -/
def exceptNoCharge (e : Except String (Option (AgentAction × ℚ))) : Bool :=
  match e with
  | .ok (some p) => decide (p.1 ≠ AgentAction.charge)
  | _ => true

theorem optionNoCharge_some {r : AgentRecommendation}
    (h : r.action ≠ .charge) : optionNoCharge (some r) = true := by
  simp [optionNoCharge, h]

theorem override_some_ne_charge {oa : RealTimeOverrideAgent}
    {ctx : BatteryContext} {r : AgentRecommendation}
    (hm : ctx.is_measurement_hour = true) (h : oa.analyze ctx = some r) :
    r.action ≠ .charge := by
  simp only [RealTimeOverrideAgent.analyze, hm] at h
  split_ifs at h
  all_goals simp only [Option.some.injEq, reduceCtorEq] at h
  all_goals try rw [← h]
  all_goals simp_all

theorem peak_some_discharge {ps : PeakShavingAgent} {vc : ValueCalculator}
    {ctx : BatteryContext} {r : AgentRecommendation}
    (h : ps.analyze vc ctx = some r) : r.action = .discharge := by
  simp only [PeakShavingAgent.analyze] at h
  split_ifs at h <;> simp only [Option.some.injEq, reduceCtorEq] at h
  all_goals rw [← h]

theorem arb_charging_none {ar : ArbitrageAgent} {vc : ValueCalculator}
    {ctx : BatteryContext} (hm : ctx.is_measurement_hour = true) :
    ar.analyze_charging vc ctx = none := by
  simp [ArbitrageAgent.analyze_charging, hm]

theorem arb_selfcons_none {ar : ArbitrageAgent} {vc : ValueCalculator}
    {ctx : BatteryContext} (hm : ctx.is_measurement_hour = true) :
    ar.analyze_self_consumption vc ctx = none := by
  simp [ArbitrageAgent.analyze_self_consumption, hm]

theorem arb_export_action {ar : ArbitrageAgent} {vc : ValueCalculator}
    {ctx : BatteryContext} {r : AgentRecommendation}
    (h : ar.analyze_export vc ctx = some r) : r.action = .exportGrid := by
  simp only [ArbitrageAgent.analyze_export] at h
  split_ifs at h <;> simp only [Option.some.injEq, reduceCtorEq] at h
  all_goals rw [← h]

theorem arb_some_ne_charge {ar : ArbitrageAgent} {vc : ValueCalculator}
    {ctx : BatteryContext} {r : AgentRecommendation}
    (hm : ctx.is_measurement_hour = true) (h : ar.analyze vc ctx = some r) :
    r.action ≠ .charge := by
  simp only [ArbitrageAgent.analyze] at h
  split_ifs at h
  all_goals try rw [arb_charging_none hm] at h
  all_goals try rw [arb_selfcons_none hm] at h
  all_goals try simp only [reduceCtorEq] at h
  all_goals try (rw [arb_export_action h]; simp)

theorem bossHourly_mem {oa : RealTimeOverrideAgent} {ps : PeakShavingAgent}
    {ar : ArbitrageAgent} {vc : ValueCalculator} {ctx : BatteryContext}
    {r : AgentRecommendation}
    (h : bossAnalyzeHourly oa ps ar vc ctx = some r) :
    r ∈ bossHourlyRecommendations oa ps ar vc ctx := by
  unfold bossAnalyzeHourly bossChooseRecommendation at h
  cases hrecs : bossHourlyRecommendations oa ps ar vc ctx with
  | nil => rw [hrecs] at h; exact absurd h (by simp)
  | cons a l =>
    rw [hrecs] at h
    have hmem : r ∈ pySortDesc bossKeyGT (a :: l) := List.mem_of_mem_head? h
    exact mem_pySortDesc.mp hmem

theorem boss_some_ne_charge {oa : RealTimeOverrideAgent} {ps : PeakShavingAgent}
    {ar : ArbitrageAgent} {vc : ValueCalculator} {ctx : BatteryContext}
    {r : AgentRecommendation} (hm : ctx.is_measurement_hour = true)
    (h : bossAnalyzeHourly oa ps ar vc ctx = some r) : r.action ≠ .charge := by
  have hr := bossHourly_mem h
  unfold bossHourlyRecommendations at hr
  rcases List.mem_append.mp hr with h12 | h3
  · rcases List.mem_append.mp h12 with h1 | h2
    · exact override_some_ne_charge hm (Option.mem_def.mp (Option.mem_toList.mp h1))
    · rw [peak_some_discharge (Option.mem_def.mp (Option.mem_toList.mp h2))]
      simp
  · exact arb_some_ne_charge hm (Option.mem_def.mp (Option.mem_toList.mp h3))

theorem getD_replicate_zero {n h : ℕ} : (List.replicate n (0:ℚ)).getD h 0 = 0 := by
  rcases lt_or_le h n with hlt | hle
  · simp [List.getD, List.getElem?_replicate, hlt]
  · simp [List.getD, List.getElem?_replicate, Nat.not_lt.mpr hle]

theorem getD_set_ne {l : List ℚ} {i j : ℕ} {a d : ℚ} (hne : i ≠ j) :
    (l.set i a).getD j d = l.getD j d := by
  simp [List.getD, List.getElem?_set_ne hne]

theorem chargingHoursOf_meas_false {i : DailyPlanInput} {hp : ℕ × ℚ}
    (h : hp ∈ chargingHoursOf i) : i.meas hp.1 = false := by
  unfold chargingHoursOf at h
  rw [mem_pySortDesc] at h
  simp only [List.mem_map, List.mem_filter, List.mem_range] at h
  obtain ⟨a, ⟨_, ha⟩, rfl⟩ := h
  simpa using (of_decide_eq_true ha).1

theorem phase3_zero_on_meas {i : DailyPlanInput} {target : ℚ} :
    ∀ (chs : List (ℕ × ℚ)) (soc : ℚ) (sched : List ℚ),
      (∀ hp ∈ chs, i.meas hp.1 = false) →
      (∀ h, i.meas h = true → sched.getD h 0 = 0) →
      ∀ h, i.meas h = true →
        (heuristicPhase3 i target chs soc sched).2.getD h 0 = 0 := by
  intro chs
  induction chs with
  | nil =>
    intro soc sched _ hsched h hh
    simpa [heuristicPhase3] using hsched h hh
  | cons hp rest ih =>
    intro soc sched hch hsched h hh
    simp only [heuristicPhase3]
    split_ifs with h1 h2
    · exact hsched h hh
    · refine ih _ _ (fun q hq => hch q (List.mem_cons_of_mem _ hq)) ?_ h hh
      intro q hq
      have hne : hp.1 ≠ q := by
        intro he
        have hf := hch hp (List.mem_cons_self _ _)
        rw [he, hq] at hf
        simp at hf
      rw [getD_set_ne hne]
      exact hsched q hq
    · exact ih _ _ (fun q hq => hch q (List.mem_cons_of_mem _ hq)) hsched h hh

/-- C6.  No charging inside the measurement window, across every decision
path: (1) the real-time override never recommends charging during a
measurement hour (its veto charge is gated on being outside the window);
(2) peak shaving only discharges; (3) arbitrage never recommends charging
during a measurement hour; (4) hence the BossAgent hourly arbitration
never chooses a charge in the window; (5) the heuristic and fallback
plans schedule zero charge for every measurement hour; (6) every feasible
point of the LP (whose constraints force charge = 0 in the window)
charges nothing at measurement hours; (7) plan execution over a plan with
zero window charge never emits a charge decision at window hours (the
synthetic-emergency path delegates to peak shaving, which only
discharges). -/
theorem c6_no_charge_in_window :
    (∀ (oa : RealTimeOverrideAgent) (ctx : BatteryContext),
      ctx.is_measurement_hour = true → optionNoCharge (oa.analyze ctx) = true) ∧
    (∀ (ps : PeakShavingAgent) (vc : ValueCalculator) (ctx : BatteryContext),
      optionNoCharge (ps.analyze vc ctx) = true) ∧
    (∀ (ar : ArbitrageAgent) (vc : ValueCalculator) (ctx : BatteryContext),
      ctx.is_measurement_hour = true → optionNoCharge (ar.analyze vc ctx) = true) ∧
    (∀ (oa : RealTimeOverrideAgent) (ps : PeakShavingAgent) (ar : ArbitrageAgent)
      (vc : ValueCalculator) (ctx : BatteryContext),
      ctx.is_measurement_hour = true →
      optionNoCharge (bossAnalyzeHourly oa ps ar vc ctx) = true) ∧
    (∀ (i : DailyPlanInput) (h : ℕ), i.meas h = true →
      (optimizeHeuristic i).charge_schedule.getD h 0 = 0 ∧
      (fallbackPlan i).charge_schedule.getD h 0 = 0) ∧
    (∀ (i : DailyPlanInput) (charge discharge soc grid : ℕ → ℚ) (peak : ℚ) (h : ℕ),
      LPFeasible i charge discharge soc grid peak → h < 24 → i.meas h = true →
      charge h = 0) ∧
    (∀ (ps : PeakShavingAgent) (vc : ValueCalculator) (plan : DailyPlanOutput)
      (alloc : CapacityAllocation) (ctx : BatteryContext),
      (∀ h : ℕ, 6 ≤ h → h ≤ 23 → plan.charge_schedule.getD h 0 = 0) →
      6 ≤ ctx.hour → ctx.hour ≤ 23 →
      exceptNoCharge (executeDailyPlan ps vc plan alloc ctx) = true) := by
  refine ⟨?_, ?_, ?_, ?_, ?_, ?_, ?_⟩
  · intro oa ctx hm
    cases ho : oa.analyze ctx with
    | none => rfl
    | some r => exact optionNoCharge_some (override_some_ne_charge hm ho)
  · intro ps vc ctx
    cases hp : ps.analyze vc ctx with
    | none => rfl
    | some r => exact optionNoCharge_some (by rw [peak_some_discharge hp]; simp)
  · intro ar vc ctx hm
    cases ha : ar.analyze vc ctx with
    | none => rfl
    | some r => exact optionNoCharge_some (arb_some_ne_charge hm ha)
  · intro oa ps ar vc ctx hm
    cases hb : bossAnalyzeHourly oa ps ar vc ctx with
    | none => rfl
    | some r => exact optionNoCharge_some (boss_some_ne_charge hm hb)
  · intro i h hh
    constructor
    · show (optimizeHeuristic i).charge_schedule.getD h 0 = 0
      unfold optimizeHeuristic
      exact phase3_zero_on_meas (chargingHoursOf i) i.current_soc_kwh
        (List.replicate 24 0) (fun hp hhp => chargingHoursOf_meas_false hhp)
        (fun q _ => getD_replicate_zero) h hh
    · exact getD_replicate_zero
  · intro i charge discharge soc grid peak h hfeas hlt hh
    exact (hfeas.2.2.2.2.2.2.2.2 h hlt hh).1
  · intro ps vc plan alloc ctx hplan h6 h23
    simp only [executeDailyPlan]
    split_ifs with h1 h2 h3
    · unfold emergencyOverride
      cases ps.analyze vc ctx <;> rfl
    · rw [hplan ctx.hour h6 h23] at h2
      norm_num at h2
    · rfl
    · rfl

/-- Fixture LP inputs for the C6 witness: zero net load, full SoC margin,
E.ON window flags for every hour. -/
def eonHours : List Bool := (List.range 24).map (fun h => decide (6 ≤ h ∧ h ≤ 23))

/-- Fixture plan input with zero forecasts and the E.ON window. -/
def iW : DailyPlanInput :=
  { consumption_forecast := List.replicate 24 0
    solar_forecast := List.replicate 24 0
    price_forecast := List.replicate 24 0
    current_soc_kwh := 12
    capacity_kwh := 40
    min_soc_kwh := 1
    max_charge_kw := 12
    max_discharge_kw := 12
    efficiency := 1
    grid_fee_sek_kwh := 0
    energy_tax_sek_kwh := 0
    vat_rate := 0
    effect_tariff_sek_kw_month := 60
    current_peak_threshold_kw := 5
    is_measurement_hour := eonHours }

/-- Witness for C6 at the shared fixtures: the measurement-hour context
ctxBase, the plan input iW at hour 18, the all-zero feasible LP point,
and the zero-charge plan planC5. -/
theorem c6_no_charge_in_window_witness :
    optionNoCharge (oaDefault.analyze ctxBase) = true ∧
    optionNoCharge (psDefault.analyze vcDefault ctxBase) = true ∧
    optionNoCharge (arbDefault.analyze vcDefault ctxBase) = true ∧
    optionNoCharge (bossAnalyzeHourly oaDefault psDefault arbDefault vcDefault ctxBase) = true ∧
    (optimizeHeuristic iW).charge_schedule.getD 18 0 = 0 ∧
    (fun _ : ℕ => (0:ℚ)) 18 = 0 ∧
    exceptNoCharge (executeDailyPlan psDefault vcDefault planC5 allocC5 ctxBase) = true := by
  have hfeas : LPFeasible iW (fun _ => 0) (fun _ => 0) (fun _ => 12)
      (fun _ => 0) 0 := by
    refine ⟨?_, ?_, ?_, ?_, ?_, ?_, ?_, ?_, ?_⟩
    · intro h _; norm_num [iW]
    · intro h _; norm_num [iW]
    · intro h _; norm_num [iW]
    · intro h _; norm_num
    · norm_num
    · intro h _; norm_num [iW, getD_replicate_zero]
    · norm_num [iW, getD_replicate_zero]
    · intro h _ _; norm_num [iW]
    · intro h _ _; norm_num [iW, getD_replicate_zero]
  refine ⟨c6_no_charge_in_window.1 oaDefault ctxBase rfl,
    c6_no_charge_in_window.2.1 psDefault vcDefault ctxBase,
    c6_no_charge_in_window.2.2.1 arbDefault vcDefault ctxBase rfl,
    c6_no_charge_in_window.2.2.2.1 oaDefault psDefault arbDefault vcDefault ctxBase rfl,
    (c6_no_charge_in_window.2.2.2.2.1 iW 18 (by decide)).1,
    c6_no_charge_in_window.2.2.2.2.2.1 iW (fun _ => 0) (fun _ => 0) (fun _ => 12)
      (fun _ => 0) 0 18 hfeas (by decide) (by decide),
    c6_no_charge_in_window.2.2.2.2.2.2 psDefault vcDefault planC5 allocC5 ctxBase
      (fun h _ _ => getD_replicate_zero) (by decide) (by decide)⟩

/-- Witness for the amended C7 statement at the sample statistics. -/
theorem c7_reserve_clamped_with_stats_witness :
    (rcWithStats.calculate_reserve ts18 10 none).required_reserve_kwh =
      max rcWithStats.min_reserve_kwh (min rcWithStats.max_reserve_kwh
        ((rcWithStats.calculate_reserve ts18 10 none).raw_reserve_kwh
          * rcWithStats.safety_buffer)) ∧
    rcWithStats.min_reserve_kwh ≤ (rcWithStats.calculate_reserve ts18 10 none).required_reserve_kwh ∧
    (rcWithStats.calculate_reserve ts18 10 none).required_reserve_kwh ≤ rcWithStats.max_reserve_kwh :=
  c7_reserve_clamped_with_stats rcWithStats ts18 10 none sampleStats rfl (by norm_num [rcWithStats])

end BatterySim
